import Mathlib

/-! CEO Sistema Académico: the authentication and authorization gate.

A shallow embedding of `src/src/server.js`: the Google verify callback, the
passport (de)serialisation callbacks, the four authorization middlewares, the
OAuth callback handler, `GET /logout`, `GET /` and the guarded page routes.

Modelling conventions.

* A JavaScript error value is a `String`.
* `req.user` is an `Option User`; `req.isAuthenticated()` is passport's test
  that `req.user` is set.
* The server-side session is an `Option Session` (`none`: no session record);
  `Session.passportUser` is `req.session.passport.user`.
* What a handler does to the response is a list of `Effect`s, in program order.
  `console.log` calls are not recorded.
* Library calls whose result the program cannot determine (`req.logout`, the
  database query) take their result as a parameter.
* Routes are matched on the exact path; no file under `Public` is assumed to
  shadow a route.
-/

namespace CeoSistema

/-- A JavaScript error value. -/
abbrev JsError := String

/-! ## Data model -/

/-- The `user` object built by the verify callback (server.js, lines 95-101). -/
structure User where
  id : Int
  email : String
  rol : String
  name : String
  photo : String
  deriving DecidableEq, Repr

/-- One row of `result.recordset`: the three selected columns (lines 79-82). -/
structure Row where
  ID_Usuario : Int
  Email : String
  NombreRol : String
  deriving DecidableEq, Repr

/-- The Google profile as far as the verify callback reads it:
`profile.emails[i].value`, `profile.displayName`, `profile.photos[i].value`.
An absent array and an empty array behave alike (both make `[0].value` throw)
and are both the empty list. -/
structure Profile where
  emails : List String
  displayName : String
  photos : List String
  deriving DecidableEq, Repr

/-- Outcome of `await getPool()` followed by `await pool.request()...query(...)`
(lines 73-89): a record set, or an exception thrown inside the `try`. -/
inductive QueryOutcome where
  | rows (recordset : List Row)
  | throws (err : JsError)
  deriving DecidableEq, Repr

/-- What the verify callback does with `done`. -/
inductive VerifyOutcome where
  /-- an exception before the `try` block: the async function rejects and
  `done` is never called -/
  | rejected (err : JsError)
  /-- `done(err, null)` -/
  | doneErr (err : JsError)
  /-- `done(null, user)` -/
  | doneUser (user : User)
  /-- `done(null, false, { message })` -/
  | doneFalse (message : String)
  deriving DecidableEq, Repr

/-- The `TypeError` raised by reading `.value` of `undefined`. -/
def typeError : JsError := "TypeError: Cannot read properties of undefined"

/-- The Google strategy's verify callback (lines 66-115). `db email` is the
outcome of the account query with `@email` bound to `email`. -/
def verify (db : String → QueryOutcome) (profile : Profile) : VerifyOutcome :=
  match profile.emails with
  | [] => .rejected typeError
  | email :: _ =>
    match db email with
    | .throws err => .doneErr err
    | .rows recordset =>
      if h : recordset.length > 0 then
        let dbUser := recordset.get ⟨0, h⟩
        match profile.photos with
        | [] => .doneErr typeError
        | photo :: _ =>
          .doneUser
            { id := dbUser.ID_Usuario
              email := dbUser.Email
              rol := dbUser.NombreRol
              name := profile.displayName
              photo := photo }
      else
        .doneFalse "Email no autorizado."

/-- `passport.serializeUser` callback (lines 119-121): `done(null, user)`. -/
def serializeUser (user : User) : Except JsError User :=
  .ok user

/-- `passport.deserializeUser` callback (lines 124-126): `done(null, user)`. -/
def deserializeUser (user : User) : Except JsError User :=
  .ok user

/-! ## Sessions and requests -/

/-- The session record: `req.session.passport.user`, when set. -/
structure Session where
  passportUser : Option User
  deriving DecidableEq, Repr

/-- The request as the handlers read it: `req.user` and `req.query.error`. -/
structure Req where
  user : Option User
  queryError : Option String
  deriving DecidableEq, Repr

/-- `req.isAuthenticated()`: passport tests whether `req.user` is set. -/
def Req.isAuthenticated (req : Req) : Bool :=
  req.user.isSome

/-- `req.logIn(user)` as passport's session manager performs it: the serialised
user is stored in a fresh session. -/
def logIn (user : User) : Except JsError Session :=
  match serializeUser user with
  | .ok obj => .ok { passportUser := some obj }
  | .error err => .error err

/-- `passport.session()` on a later request: the stored object goes through
`deserializeUser` and becomes `req.user`. -/
def sessionUser (s : Option Session) : Option User :=
  match s with
  | none => none
  | some sess =>
    match sess.passportUser with
    | none => none
    | some obj =>
      match deserializeUser obj with
      | .ok user => some user
      | .error _ => none

/-- The request built from the session and the query string. -/
def mkReq (s : Option Session) (queryError : Option String) : Req :=
  { user := sessionUser s, queryError := queryError }

/-- `req.logout(cb)`: `result` is the error the library hands to `cb`, if any.
On success the login is removed from the session; on an error the stored
session is taken as unchanged. -/
def reqLogout (result : Option JsError) (s : Option Session) : Option Session :=
  match result with
  | none => s.map fun _ => { passportUser := none }
  | some _ => s

/-- The options given to the session middleware (lines 42-50). No `name` is
given. -/
structure SessionOptions where
  secret : String
  resave : Bool
  saveUninitialized : Bool
  cookieSecure : Bool
  cookieMaxAge : Nat
  name : Option String
  deriving DecidableEq, Repr

/-- The session configuration of the application (lines 42-50). -/
def sessionOptions : SessionOptions :=
  { secret := "ceo_sistema_secreto_2024"
    resave := false
    saveUninitialized := false
    cookieSecure := false
    cookieMaxAge := 24 * 60 * 60 * 1000
    name := none }

/-- The name of the session cookie: the `name` option, and the session
library's default `connect.sid` when none is given. -/
def sessionCookieName (options : SessionOptions) : String :=
  options.name.getD "connect.sid"

/-! ## Responses -/

/-- The example teacher of `/secretaria/editar-profesor` (line 289). -/
structure Profesor where
  id : Nat
  nombres : String
  apellidos : String
  deriving DecidableEq, Repr

/-- The data handed to `res.render`. The `timestamp` of `/test-ejs` is the
wall-clock time and is left out. -/
structure Locals where
  user : Option User := none
  error : Option String := none
  success : Option String := none
  profesor : Option Profesor := none
  message : Option String := none
  deriving DecidableEq, Repr

/-- One observable action of a middleware or handler. -/
inductive Effect where
  | redirect (url : String)
  | render (view : String) (locals : Locals)
  | clearCookie (name : String)
  /-- `req.logout` was called -/
  | logout
  /-- `req.session.destroy` was called -/
  | sessionDestroy
  /-- `next(err)` -/
  | nextErr (err : JsError)
  /-- control handed to `passport.authenticate('google', ...)` -/
  | passportAuthenticate
  /-- no route matched: the framework answers 404 -/
  | notFound
  deriving DecidableEq, Repr

/-- The state after a request and what was done to the response. -/
structure Outcome where
  session : Option Session
  trace : List Effect
  deriving DecidableEq, Repr

/-- What an authorization middleware does: `next()` or `res.redirect(url)`. -/
inductive GuardResult where
  | next
  | redirect (url : String)
  deriving DecidableEq, Repr

/-! ## Authorization middlewares (lines 129-154) -/

/-- Middleware `isAuthenticated` (lines 129-132). -/
def isAuthenticated (req : Req) : GuardResult :=
  if req.isAuthenticated then .next
  else .redirect "/?error=not_logged_in"

/-- Middleware `isSecretaria` (lines 135-140). `req.isAuthenticated()` holds
exactly in the `some` branch, the only one in which `req.user.rol` is read. -/
def isSecretaria (req : Req) : GuardResult :=
  match req.user with
  | some user =>
    if user.rol = "SECRETARIA" ∨ user.rol = "DIRECTOR" then .next
    else .redirect "/?error=unauthorized"
  | none => .redirect "/?error=unauthorized"

/-- Middleware `isProfesor` (lines 142-147). -/
def isProfesor (req : Req) : GuardResult :=
  match req.user with
  | some user =>
    if user.rol = "PROFESORES" then .next
    else .redirect "/?error=unauthorized"
  | none => .redirect "/?error=unauthorized"

/-- Middleware `isEstudiante` (lines 149-154). -/
def isEstudiante (req : Req) : GuardResult :=
  match req.user with
  | some user =>
    if user.rol = "ESTUDIANTES" then .next
    else .redirect "/?error=unauthorized"
  | none => .redirect "/?error=unauthorized"

/-- `app.get(path, guard, handler)`: the framework calls `guard`; the handler
runs only when the guard calls `next()`. -/
def runGuarded (guard : Req → GuardResult) (handler : Req → Effect) (req : Req) :
    List Effect :=
  match guard req with
  | .next => [handler req]
  | .redirect url => [.redirect url]

/-! ## Handlers -/

/-- The second handler of `GET /auth/google/callback` (lines 171-197), run
after `passport.authenticate` has set `req.user` to `user`. `logoutResult` is
what `req.logout` reports; the redirect of the default case is issued whether
or not it reports an error. -/
def callbackHandler (logoutResult : Option JsError) (s : Option Session) (user : User) :
    Outcome :=
  match user.rol with
  | "SECRETARIA" | "DIRECTOR" => { session := s, trace := [.redirect "/secretaria"] }
  | "PROFESORES" => { session := s, trace := [.redirect "/profesores"] }
  | "ESTUDIANTES" => { session := s, trace := [.redirect "/estudiantes"] }
  | "ACOMPANATES" => { session := s, trace := [.redirect "/acompanantes"] }
  | _ =>
    { session := reqLogout logoutResult s
      trace := [.logout, .redirect "/?error=rol_invalido"] }

/-- Handler of `GET /logout` (lines 201-209). -/
def logoutHandler (logoutResult : Option JsError) (s : Option Session) : Outcome :=
  match logoutResult with
  | some err => { session := reqLogout logoutResult s, trace := [.logout, .nextErr err] }
  | none =>
    { session := none
      trace := [.logout, .sessionDestroy, .clearCookie "connect.sid", .redirect "/"] }

/-- The message chosen from `req.query.error` (lines 236-241). -/
def errorMessage (error : Option String) : Option String :=
  let m0 : Option String := none
  let m1 := if error = some "auth_failed" then
    some "Error en la autenticación con Google." else m0
  let m2 := if error = some "not_logged_in" then
    some "Necesitas iniciar sesión para continuar." else m1
  let m3 := if error = some "unauthorized" then
    some "No tienes permisos para acceder a esa página." else m2
  if error = some "rol_invalido" then
    some "Tu usuario tiene un rol no reconocido por el sistema." else m3

/-- Handler of `GET /` (lines 216-248). -/
def rootHandler (req : Req) : List Effect :=
  match req.user with
  | some user =>
    match user.rol with
    | "SECRETARIA" | "DIRECTOR" => [.redirect "/secretaria"]
    | "PROFESORES" => [.redirect "/profesores"]
    | "ESTUDIANTES" => [.redirect "/estudiantes"]
    | "ACOMPANATES" => [.redirect "/acompanantes"]
    | _ => [.redirect "/logout"]
  | none =>
    [.render "login" { error := errorMessage req.queryError, success := none, user := none }]

/-- The example teacher rendered by `/secretaria/editar-profesor`. -/
def profesorEjemplo : Profesor :=
  { id := 1, nombres := "Juan", apellidos := "Ejemplo" }

/-- The guarded page routes (lines 252-301): the guard and the page handler
registered for a path. -/
def guardedRoute (path : String) : Option ((Req → GuardResult) × (Req → Effect)) :=
  match path with
  | "/profesores" =>
    some (isProfesor, fun req => .render "profesores/menu-profesores" { user := req.user })
  | "/estudiantes" =>
    some (isEstudiante, fun req => .render "estudiantes/menu-estudiantes" { user := req.user })
  | "/secretaria" =>
    some (isSecretaria, fun req => .render "secretaria/menu-secretaria" { user := req.user })
  | "/secretaria/agregar-estudiante" =>
    some (isSecretaria, fun req =>
      .render "secretaria/AdminEstudiantes/agregar-estudiante" { user := req.user })
  | "/secretaria/editar-estudiante" =>
    some (isSecretaria, fun req =>
      .render "secretaria/AdminEstudiantes/editar-estudiante" { user := req.user })
  | "/secretaria/editar-profesor" =>
    some (isSecretaria, fun req =>
      .render "secretaria/AdminProfesores/editar-profesor"
        { user := req.user, profesor := some profesorEjemplo })
  | "/secretaria/agregar-profesor" =>
    some (isSecretaria, fun req =>
      .render "secretaria/AdminProfesores/agregar-profesor"
        { user := req.user, error := req.queryError })
  | _ => none

/-! ## Dispatch -/

/-- The path of a request URL: what precedes the first `?`. -/
def pathOf (url : String) : String :=
  String.mk (url.data.takeWhile fun c => c != '?')

/-- The `error` parameter of a request URL of the form `path?error=value`. -/
def queryErrorOf (url : String) : Option String :=
  match url.data.dropWhile fun c => c != '?' with
  | [] => none
  | _ :: rest =>
    if "error=".data.isPrefixOf rest then some (String.mk (rest.drop 6)) else none

/-- One `GET` request against the application: the routes in registration
order. `logoutResult` is what `req.logout` reports if this request calls it. -/
def handle (logoutResult : Option JsError) (s : Option Session) (url : String) : Outcome :=
  let req := mkReq s (queryErrorOf url)
  match pathOf url with
  | "/auth/google" => { session := s, trace := [.passportAuthenticate] }
  | "/auth/google/callback" => { session := s, trace := [.passportAuthenticate] }
  | "/logout" => logoutHandler logoutResult s
  | "/" => { session := s, trace := rootHandler req }
  | "/test-ejs" =>
    { session := s
      trace := [.render "test" { message := some "✅ EJS está funcionando correctamente!" }] }
  | path =>
    match guardedRoute path with
    | some (guard, handler) => { session := s, trace := runGuarded guard handler req }
    | none => { session := s, trace := [.notFound] }

/-- The target of the first `res.redirect` in a trace, if there is one. -/
def redirectTarget : List Effect → Option String
  | [] => none
  | .redirect url :: _ => some url
  | _ :: rest => redirectTarget rest

/-- A browser following redirects: request `url`, and while the response is a
redirect request its target, at most `fuel` times. `logoutResults k` is what
`req.logout` reports during the request made after `k` redirects. The result
is the number of redirects followed and the final outcome; `none` when the
fuel runs out on a redirect. -/
def browse (logoutResults : Nat → Option JsError) :
    Nat → Nat → Option Session → String → Option (Nat × Outcome)
  | fuel, hops, s, url =>
    let out := handle (logoutResults hops) s url
    match redirectTarget out.trace with
    | none => some (hops, out)
    | some target =>
      match fuel with
      | 0 => none
      | fuel + 1 => browse logoutResults fuel (hops + 1) out.session target

/-! ## Shared lemmas -/

/-- The role switch of the callback handler, as a case split on the role. -/
lemma callbackHandler_cases (r : Option JsError) (s : Option Session) (u : User) :
    (u.rol = "SECRETARIA" ∧ callbackHandler r s u = ⟨s, [.redirect "/secretaria"]⟩) ∨
    (u.rol = "DIRECTOR" ∧ callbackHandler r s u = ⟨s, [.redirect "/secretaria"]⟩) ∨
    (u.rol = "PROFESORES" ∧ callbackHandler r s u = ⟨s, [.redirect "/profesores"]⟩) ∨
    (u.rol = "ESTUDIANTES" ∧ callbackHandler r s u = ⟨s, [.redirect "/estudiantes"]⟩) ∨
    (u.rol = "ACOMPANATES" ∧ callbackHandler r s u = ⟨s, [.redirect "/acompanantes"]⟩) ∨
    ((u.rol ≠ "SECRETARIA" ∧ u.rol ≠ "DIRECTOR" ∧ u.rol ≠ "PROFESORES" ∧
        u.rol ≠ "ESTUDIANTES" ∧ u.rol ≠ "ACOMPANATES") ∧
      callbackHandler r s u =
        ⟨reqLogout r s, [.logout, .redirect "/?error=rol_invalido"]⟩) := by
  unfold callbackHandler
  split <;> simp_all

/-- The role switch of `GET /` for an authenticated request, as a case split. -/
lemma rootHandler_cases (u : User) (q : Option String) :
    (u.rol = "SECRETARIA" ∧ rootHandler ⟨some u, q⟩ = [.redirect "/secretaria"]) ∨
    (u.rol = "DIRECTOR" ∧ rootHandler ⟨some u, q⟩ = [.redirect "/secretaria"]) ∨
    (u.rol = "PROFESORES" ∧ rootHandler ⟨some u, q⟩ = [.redirect "/profesores"]) ∨
    (u.rol = "ESTUDIANTES" ∧ rootHandler ⟨some u, q⟩ = [.redirect "/estudiantes"]) ∨
    (u.rol = "ACOMPANATES" ∧ rootHandler ⟨some u, q⟩ = [.redirect "/acompanantes"]) ∨
    ((u.rol ≠ "SECRETARIA" ∧ u.rol ≠ "DIRECTOR" ∧ u.rol ≠ "PROFESORES" ∧
        u.rol ≠ "ESTUDIANTES" ∧ u.rol ≠ "ACOMPANATES") ∧
      rootHandler ⟨some u, q⟩ = [.redirect "/logout"]) := by
  simp only [rootHandler]
  split <;> simp_all

/-! ## C1: the landing table -/

/-- C1: a user whose role is the string ACOMPANANTES is not sent to
/acompanantes. The callback handler takes the default branch (logout, then a
redirect to /?error=rol_invalido) and GET / redirects to /logout, because both
switches list the label ACOMPANATES. -/
theorem acompanantes_role_takes_default_branch (r : Option JsError) (s : Option Session)
    (id : Int) (email name photo : String) (q : Option String) :
    callbackHandler r s ⟨id, email, "ACOMPANANTES", name, photo⟩ =
        ⟨reqLogout r s, [.logout, .redirect "/?error=rol_invalido"]⟩ ∧
      rootHandler ⟨some ⟨id, email, "ACOMPANANTES", name, photo⟩, q⟩ =
        [.redirect "/logout"] := by
  exact ⟨rfl, rfl⟩

/-! ## C2: the two call sites of the role switch -/

/-- C2 as stated fails: for a session whose role is INVITADO the callback
handler redirects to /?error=rol_invalido and GET / redirects to /logout. -/
theorem call_sites_differ_on_unlisted_role :
    redirectTarget
        (callbackHandler none (some ⟨some ⟨3, "i@colegio.edu", "INVITADO", "Ines", "i.png"⟩⟩)
          ⟨3, "i@colegio.edu", "INVITADO", "Ines", "i.png"⟩).trace =
        some "/?error=rol_invalido" ∧
      redirectTarget
        (rootHandler
          (mkReq (some ⟨some ⟨3, "i@colegio.edu", "INVITADO", "Ines", "i.png"⟩⟩) none)) =
        some "/logout" ∧
      redirectTarget
        (callbackHandler none (some ⟨some ⟨3, "i@colegio.edu", "INVITADO", "Ines", "i.png"⟩⟩)
          ⟨3, "i@colegio.edu", "INVITADO", "Ines", "i.png"⟩).trace ≠
      redirectTarget
        (rootHandler
          (mkReq (some ⟨some ⟨3, "i@colegio.edu", "INVITADO", "Ines", "i.png"⟩⟩) none)) := by
  decide

/-- C2, amended: for the roles SECRETARIA, DIRECTOR, PROFESORES and ESTUDIANTES
the callback handler and GET / issue the same redirect and the callback keeps
the session; and for every role string either both issue the same redirect,
which is not /logout, or the callback handler logs out and redirects to
/?error=rol_invalido while GET / redirects to /logout. -/
theorem call_sites_agree_or_default (r : Option JsError) (s : Option Session) (u : User)
    (q : Option String) :
    (u.rol ∈ ["SECRETARIA", "DIRECTOR", "PROFESORES", "ESTUDIANTES"] →
        redirectTarget (callbackHandler r s u).trace =
          redirectTarget (rootHandler ⟨some u, q⟩) ∧
        (callbackHandler r s u).session = s) ∧
      ((redirectTarget (callbackHandler r s u).trace =
            redirectTarget (rootHandler ⟨some u, q⟩) ∧
          redirectTarget (rootHandler ⟨some u, q⟩) ≠ some "/logout") ∨
        (callbackHandler r s u =
            ⟨reqLogout r s, [.logout, .redirect "/?error=rol_invalido"]⟩ ∧
          rootHandler ⟨some u, q⟩ = [.redirect "/logout"])) := by
  rcases callbackHandler_cases r s u with h | h | h | h | h | h <;>
    rcases rootHandler_cases u q with g | g | g | g | g | g <;>
    simp_all [redirectTarget]

/-- Witness for C2 amended, at a DIRECTOR user. -/
theorem call_sites_agree_or_default_witness :
    redirectTarget
        (callbackHandler none none ⟨2, "d@colegio.edu", "DIRECTOR", "Dora", "d.png"⟩).trace =
      redirectTarget
        (rootHandler ⟨some ⟨2, "d@colegio.edu", "DIRECTOR", "Dora", "d.png"⟩, none⟩) ∧
    (callbackHandler none none ⟨2, "d@colegio.edu", "DIRECTOR", "Dora", "d.png"⟩).session =
      none :=
  (call_sites_agree_or_default none none ⟨2, "d@colegio.edu", "DIRECTOR", "Dora", "d.png"⟩
    none).1 (by decide)

/-! ## C3: roles outside the five-element set -/

/-- C3: a user whose role is the string ACOMPANATES, which is not one of the
five defined roles, is not logged out by the callback handler: the session is
left as it is and the only effect is a redirect to /acompanantes. -/
theorem acompanates_role_is_not_logged_out (r : Option JsError) (s : Option Session)
    (id : Int) (email name photo : String) :
    callbackHandler r s ⟨id, email, "ACOMPANATES", name, photo⟩ =
      ⟨s, [.redirect "/acompanantes"]⟩ := by
  rfl

/-! ## C4: the authorization middlewares -/

/-- C4: each middleware calls next exactly when the request is authenticated
and its role is in the middleware's set (any role for isAuthenticated,
SECRETARIA or DIRECTOR for isSecretaria, PROFESORES for isProfesor, ESTUDIANTES
for isEstudiante); a guarded route either runs its page handler after next, or
answers with one redirect that does not depend on the page handler; and every
registered guarded route answers with its guard composed before its handler,
leaving the session as it was. -/
theorem guards_admit_iff_and_short_circuit (req : Req) (handler : Req → Effect)
    (r : Option JsError) (s : Option Session) (url : String) :
    (isAuthenticated req = .next ↔ req.isAuthenticated = true) ∧
    (isSecretaria req = .next ↔
      req.isAuthenticated = true ∧
        ∃ u, req.user = some u ∧ (u.rol = "SECRETARIA" ∨ u.rol = "DIRECTOR")) ∧
    (isProfesor req = .next ↔
      req.isAuthenticated = true ∧ ∃ u, req.user = some u ∧ u.rol = "PROFESORES") ∧
    (isEstudiante req = .next ↔
      req.isAuthenticated = true ∧ ∃ u, req.user = some u ∧ u.rol = "ESTUDIANTES") ∧
    (∀ guard ∈ [isAuthenticated, isSecretaria, isProfesor, isEstudiante],
      (guard req = .next ∧ runGuarded guard handler req = [handler req]) ∨
      (∃ target, guard req = .redirect target ∧
        ∀ other : Req → Effect, runGuarded guard other req = [.redirect target])) ∧
    (∀ guard page, guardedRoute (pathOf url) = some (guard, page) →
      handle r s url = ⟨s, runGuarded guard page (mkReq s (queryErrorOf url))⟩) := by
  refine ⟨?_, ?_, ?_, ?_, ?_, ?_⟩
  · unfold isAuthenticated
    split <;> simp_all
  · unfold isSecretaria Req.isAuthenticated
    split
    · split <;> simp_all
    · simp_all
  · unfold isProfesor Req.isAuthenticated
    split
    · split <;> simp_all
    · simp_all
  · unfold isEstudiante Req.isAuthenticated
    split
    · split <;> simp_all
    · simp_all
  · intro guard _
    unfold runGuarded
    cases hg : guard req with
    | next => exact Or.inl ⟨rfl, rfl⟩
    | redirect target => exact Or.inr ⟨target, rfl, fun _ => rfl⟩
  · intro guard page hroute
    unfold handle
    split
    all_goals first
      | (rename_i hp; rw [hp] at hroute; exact absurd hroute (by simp [guardedRoute]))
      | simp [hroute]

/-- Witness for C4, at a request of a PROFESORES user to /profesores. -/
theorem guards_admit_iff_and_short_circuit_witness :
    handle none (some ⟨some ⟨5, "p@colegio.edu", "PROFESORES", "Pau", "p.png"⟩⟩) "/profesores" =
      ⟨some ⟨some ⟨5, "p@colegio.edu", "PROFESORES", "Pau", "p.png"⟩⟩,
        runGuarded isProfesor
          (fun req => .render "profesores/menu-profesores" { user := req.user })
          (mkReq (some ⟨some ⟨5, "p@colegio.edu", "PROFESORES", "Pau", "p.png"⟩⟩)
            (queryErrorOf "/profesores"))⟩ :=
  (guards_admit_iff_and_short_circuit ⟨none, none⟩ (fun _ => .notFound) none
    (some ⟨some ⟨5, "p@colegio.edu", "PROFESORES", "Pau", "p.png"⟩⟩) "/profesores").2.2.2.2.2
    isProfesor (fun req => .render "profesores/menu-profesores" { user := req.user }) rfl

/-! ## C5: requests without a session -/

/-- C5 as stated fails: with no session, GET /profesores is redirected to
/?error=unauthorized, which is not /?error=not_logged_in. -/
theorem profesores_without_session_not_sent_to_not_logged_in :
    (handle none none "/profesores").trace = [.redirect "/?error=unauthorized"] ∧
      (handle none none "/profesores").trace ≠ [.redirect "/?error=not_logged_in"] := by
  decide

/-- C5, amended: on every guarded route a request whose session carries no
authenticated user is redirected to /?error=unauthorized and the session is
left as it was; the isAuthenticated middleware is the one that redirects such
a request to /?error=not_logged_in; and after a successful GET /logout of any
session, GET /profesores is redirected to /?error=unauthorized. -/
theorem no_session_is_redirected_unauthorized (r : Option JsError) (s : Option Session)
    (q : Option String) (h : sessionUser s = none) :
    (∀ path ∈ ["/secretaria", "/secretaria/agregar-estudiante",
        "/secretaria/editar-estudiante", "/secretaria/editar-profesor",
        "/secretaria/agregar-profesor", "/profesores", "/estudiantes"],
      handle r s path = ⟨s, [.redirect "/?error=unauthorized"]⟩) ∧
    isAuthenticated (mkReq s q) = .redirect "/?error=not_logged_in" ∧
    (∀ s0 : Option Session,
      handle r (handle none s0 "/logout").session "/profesores" =
        ⟨none, [.redirect "/?error=unauthorized"]⟩) := by
  refine ⟨?_, ?_, ?_⟩
  · intro path hp
    simp only [List.mem_cons, List.mem_singleton, List.not_mem_nil, or_false] at hp
    rcases hp with rfl | rfl | rfl | rfl | rfl | rfl | rfl <;>
      simp [handle, pathOf, guardedRoute, runGuarded, mkReq, h, isSecretaria, isProfesor,
        isEstudiante]
  · simp [isAuthenticated, Req.isAuthenticated, mkReq, h]
  · intro s0
    simp [handle, pathOf, guardedRoute, runGuarded, mkReq, isProfesor, logoutHandler,
      sessionUser]

/-- Witness for C5 amended: a PROFESORES user logs out and asks for
/profesores. -/
theorem no_session_is_redirected_unauthorized_witness :
    sessionUser (some ⟨none⟩) = none ∧
    handle none (some ⟨none⟩) "/secretaria/editar-profesor" =
      ⟨some ⟨none⟩, [.redirect "/?error=unauthorized"]⟩ ∧
    handle none
        (handle none (some ⟨some ⟨5, "p@colegio.edu", "PROFESORES", "Pau", "p.png"⟩⟩)
          "/logout").session
        "/profesores" =
      ⟨none, [.redirect "/?error=unauthorized"]⟩ :=
  ⟨rfl,
    (no_session_is_redirected_unauthorized none (some ⟨none⟩) none rfl).1
      "/secretaria/editar-profesor" (by simp),
    (no_session_is_redirected_unauthorized none (some ⟨none⟩) none rfl).2.2
      (some ⟨some ⟨5, "p@colegio.edu", "PROFESORES", "Pau", "p.png"⟩⟩)⟩

/-! ## C6: authenticated requests with the wrong role -/

/-- C6: for an authenticated request whose role is outside a role
middleware's set, that middleware redirects to /?error=unauthorized; and a
session of a SECRETARIA user is redirected to /secretaria by GET / and to
/?error=unauthorized by GET /profesores. -/
theorem wrong_role_is_redirected_unauthorized (u : User) (q : Option String)
    (r : Option JsError) (s : Option Session) :
    (¬(u.rol = "SECRETARIA" ∨ u.rol = "DIRECTOR") →
      isSecretaria ⟨some u, q⟩ = .redirect "/?error=unauthorized") ∧
    (u.rol ≠ "PROFESORES" → isProfesor ⟨some u, q⟩ = .redirect "/?error=unauthorized") ∧
    (u.rol ≠ "ESTUDIANTES" → isEstudiante ⟨some u, q⟩ = .redirect "/?error=unauthorized") ∧
    (u.rol = "SECRETARIA" → sessionUser s = some u →
      handle r s "/" = ⟨s, [.redirect "/secretaria"]⟩ ∧
      handle r s "/profesores" = ⟨s, [.redirect "/?error=unauthorized"]⟩) := by
  refine ⟨?_, ?_, ?_, ?_⟩
  · intro h
    simp [isSecretaria, h]
  · intro h
    simp [isProfesor, h]
  · intro h
    simp [isEstudiante, h]
  · intro hrol hs
    constructor
    · simp [handle, pathOf, mkReq, hs, rootHandler, hrol]
    · simp [handle, pathOf, guardedRoute, runGuarded, mkReq, hs, isProfesor, hrol]

/-- Witness for C6: the session of maria@colegio.edu, role SECRETARIA. -/
theorem wrong_role_is_redirected_unauthorized_witness :
    isProfesor ⟨some ⟨1, "maria@colegio.edu", "SECRETARIA", "Maria", "m.png"⟩, none⟩ =
        .redirect "/?error=unauthorized" ∧
      handle none (some ⟨some ⟨1, "maria@colegio.edu", "SECRETARIA", "Maria", "m.png"⟩⟩) "/" =
        ⟨some ⟨some ⟨1, "maria@colegio.edu", "SECRETARIA", "Maria", "m.png"⟩⟩,
          [.redirect "/secretaria"]⟩ ∧
      handle none (some ⟨some ⟨1, "maria@colegio.edu", "SECRETARIA", "Maria", "m.png"⟩⟩)
          "/profesores" =
        ⟨some ⟨some ⟨1, "maria@colegio.edu", "SECRETARIA", "Maria", "m.png"⟩⟩,
          [.redirect "/?error=unauthorized"]⟩ :=
  ⟨(wrong_role_is_redirected_unauthorized
      ⟨1, "maria@colegio.edu", "SECRETARIA", "Maria", "m.png"⟩ none none
      (some ⟨some ⟨1, "maria@colegio.edu", "SECRETARIA", "Maria", "m.png"⟩⟩)).2.1 (by decide),
    (wrong_role_is_redirected_unauthorized
      ⟨1, "maria@colegio.edu", "SECRETARIA", "Maria", "m.png"⟩ none none
      (some ⟨some ⟨1, "maria@colegio.edu", "SECRETARIA", "Maria", "m.png"⟩⟩)).2.2.2 rfl rfl⟩

/-! ## C7: the verify callback -/

/-- C7 as stated fails: the account query returns one row for the email, the
profile carries no photo, and the verify callback ends in done(err) with the
TypeError instead of an authenticated user. -/
theorem verify_row_without_photo_is_error :
    verify (fun _ => .rows [⟨1, "maria@colegio.edu", "SECRETARIA"⟩])
        ⟨["maria@colegio.edu"], "Maria", []⟩ = .doneErr typeError ∧
      ¬ ∃ u, verify (fun _ => .rows [⟨1, "maria@colegio.edu", "SECRETARIA"⟩])
        ⟨["maria@colegio.edu"], "Maria", []⟩ = .doneUser u := by
  constructor
  · rfl
  · rintro ⟨u, hu⟩
    have hv : verify (fun _ => .rows [⟨1, "maria@colegio.edu", "SECRETARIA"⟩])
        ⟨["maria@colegio.edu"], "Maria", []⟩ = .doneErr typeError := rfl
    rw [hv] at hu
    exact VerifyOutcome.noConfusion hu

/-- C7, amended: for a profile that carries a first email and a first photo,
the verify callback yields an authenticated user exactly when the account
query for that email returns at least one row, and the user then has the first
row's ID_Usuario, Email and NombreRol, the profile's display name and its first
photo; zero rows yield done(null, false); a query that throws yields done(err)
with the thrown error; and done(err) is never done(null, false). -/
theorem verify_outcome_by_query (db : String → QueryOutcome) (profile : Profile)
    (email photo : String) (es ps : List String)
    (he : profile.emails = email :: es) (hp : profile.photos = photo :: ps) :
    ((∃ u, verify db profile = .doneUser u) ↔ ∃ row rest, db email = .rows (row :: rest)) ∧
    (∀ row rest, db email = .rows (row :: rest) →
      verify db profile =
        .doneUser ⟨row.ID_Usuario, row.Email, row.NombreRol, profile.displayName, photo⟩) ∧
    (db email = .rows [] → verify db profile = .doneFalse "Email no autorizado.") ∧
    (∀ err, db email = .throws err → verify db profile = .doneErr err) ∧
    (∀ err message, VerifyOutcome.doneErr err ≠ VerifyOutcome.doneFalse message) := by
  have hrow : ∀ row rest, db email = .rows (row :: rest) →
      verify db profile =
        .doneUser ⟨row.ID_Usuario, row.Email, row.NombreRol, profile.displayName, photo⟩ := by
    intro row rest hq
    simp [verify, he, hp, hq]
  have hzero : db email = .rows [] → verify db profile = .doneFalse "Email no autorizado." := by
    intro hq
    simp [verify, he, hq]
  have hthrow : ∀ err, db email = .throws err → verify db profile = .doneErr err := by
    intro err hq
    simp [verify, he, hq]
  refine ⟨⟨?_, ?_⟩, hrow, hzero, hthrow, ?_⟩
  · rintro ⟨u, hu⟩
    cases hq : db email with
    | throws err => rw [hthrow err hq] at hu; exact absurd hu (by simp)
    | rows recordset =>
      cases recordset with
      | nil => rw [hzero hq] at hu; exact absurd hu (by simp)
      | cons row rest => exact ⟨row, rest, rfl⟩
  · rintro ⟨row, rest, hq⟩
    exact ⟨_, hrow row rest hq⟩
  · intro err message
    simp

/-- Witness for C7 amended: maria@colegio.edu, one active row, one photo. -/
theorem verify_outcome_by_query_witness :
    verify (fun _ => .rows [⟨1, "maria@colegio.edu", "SECRETARIA"⟩])
        ⟨["maria@colegio.edu"], "Maria", ["m.png"]⟩ =
      .doneUser ⟨1, "maria@colegio.edu", "SECRETARIA", "Maria", "m.png"⟩ :=
  (verify_outcome_by_query (fun _ => .rows [⟨1, "maria@colegio.edu", "SECRETARIA"⟩])
    ⟨["maria@colegio.edu"], "Maria", ["m.png"]⟩ "maria@colegio.edu" "m.png" [] [] rfl rfl).2.1
    ⟨1, "maria@colegio.edu", "SECRETARIA"⟩ [] rfl

/-! ## C8: logout -/

/-- C8: when req.logout reports no error, GET /logout calls req.logout,
destroys the session, clears the cookie connect.sid, which is the name of the
configured session cookie, and redirects to /, in that order, and the
resulting state has no session and no authenticated user; when req.logout
reports an error, the error goes to next and no redirect is issued. -/
theorem logout_destroys_clears_redirects (s : Option Session) (err : JsError) :
    logoutHandler none s =
        ⟨none, [.logout, .sessionDestroy, .clearCookie "connect.sid", .redirect "/"]⟩ ∧
      sessionCookieName sessionOptions = "connect.sid" ∧
      handle none s "/logout" = logoutHandler none s ∧
      sessionUser (handle none s "/logout").session = none ∧
      (handle (some err) s "/logout").trace = [.logout, .nextErr err] ∧
      redirectTarget (handle (some err) s "/logout").trace = none := by
  refine ⟨rfl, rfl, ?_, ?_, ?_, ?_⟩ <;>
    simp [handle, pathOf, logoutHandler, sessionUser, redirectTarget]

/-! ## C9: the session round trip -/

/-- C9: deserializeUser applied to the result of serializeUser returns the
stored user unchanged, field by field; the session written at login gives the
same user, and so the same role, as req.user on a later request. -/
theorem serialize_deserialize_round_trip (u : User) (q : Option String) :
    (serializeUser u).bind deserializeUser = .ok u ∧
    (∃ stored restored, serializeUser u = .ok stored ∧ deserializeUser stored = .ok restored ∧
      restored.id = u.id ∧ restored.email = u.email ∧ restored.rol = u.rol ∧
      restored.name = u.name ∧ restored.photo = u.photo) ∧
    (∃ sess, logIn u = .ok sess ∧ (mkReq (some sess) q).user = some u ∧
      (mkReq (some sess) q).user.map (fun v => v.rol) = some u.rol) := by
  refine ⟨rfl, ⟨u, u, rfl, rfl, rfl, rfl, rfl, rfl, rfl⟩, ⟨⟨some u⟩, rfl, rfl, rfl⟩⟩

/-! ## C10: following the redirects from `/` -/

/-- A response that is not a redirect ends the browsing. -/
lemma browse_stop (lr : Nat → Option JsError) (fuel hops : Nat) (s : Option Session)
    (url : String) (h : redirectTarget (handle (lr hops) s url).trace = none) :
    browse lr fuel hops s url = some (hops, handle (lr hops) s url) := by
  rw [browse]
  simp only [h]

/-- A redirect is followed when fuel is left. -/
lemma browse_step (lr : Nat → Option JsError) (fuel hops : Nat) (s : Option Session)
    (url target : String) (h : redirectTarget (handle (lr hops) s url).trace = some target) :
    browse lr (fuel + 1) hops s url =
      browse lr fuel (hops + 1) (handle (lr hops) s url).session target := by
  rw [browse]
  simp only [h]

/-- `GET /` answers with the root handler and keeps the session. -/
lemma handle_root (r : Option JsError) (s : Option Session) :
    handle r s "/" = ⟨s, rootHandler (mkReq s none)⟩ := by
  simp [handle, pathOf, queryErrorOf]

/-- `GET /` without an authenticated user renders the login view. -/
lemma root_anonymous (r : Option JsError) (s : Option Session) (h : sessionUser s = none) :
    redirectTarget (handle r s "/").trace = none := by
  simp [handle_root, rootHandler, mkReq, h, redirectTarget]

/-- From `/`, every chain of redirects ends within two redirects, whatever the
fuel beyond two. -/
lemma browse_root (lr : Nat → Option JsError) (s : Option Session) :
    ∃ hops out, hops ≤ 2 ∧ redirectTarget out.trace = none ∧
      ∀ n, browse lr (n + 2) 0 s "/" = some (hops, out) := by
  cases hs : sessionUser s with
  | none =>
    exact ⟨0, handle (lr 0) s "/", by omega, root_anonymous _ _ hs,
      fun n => browse_stop lr _ 0 s "/" (root_anonymous _ _ hs)⟩
  | some u =>
    have hroot : handle (lr 0) s "/" = ⟨s, rootHandler ⟨some u, none⟩⟩ := by
      rw [handle_root, mkReq, hs]
    rcases rootHandler_cases u none with h | h | h | h | h | h
    · have h1 : redirectTarget (handle (lr 0) s "/").trace = some "/secretaria" := by
        rw [hroot, h.2]; rfl
      have h2 : redirectTarget (handle (lr 1) s "/secretaria").trace = none := by
        simp [handle, pathOf, guardedRoute, runGuarded, mkReq, hs, isSecretaria, h.1,
          redirectTarget]
      refine ⟨1, handle (lr 1) s "/secretaria", by omega, h2, fun n => ?_⟩
      rw [browse_step lr (n + 1) 0 s "/" _ h1, hroot]
      exact browse_stop lr _ 1 s _ h2
    · have h1 : redirectTarget (handle (lr 0) s "/").trace = some "/secretaria" := by
        rw [hroot, h.2]; rfl
      have h2 : redirectTarget (handle (lr 1) s "/secretaria").trace = none := by
        simp [handle, pathOf, guardedRoute, runGuarded, mkReq, hs, isSecretaria, h.1,
          redirectTarget]
      refine ⟨1, handle (lr 1) s "/secretaria", by omega, h2, fun n => ?_⟩
      rw [browse_step lr (n + 1) 0 s "/" _ h1, hroot]
      exact browse_stop lr _ 1 s _ h2
    · have h1 : redirectTarget (handle (lr 0) s "/").trace = some "/profesores" := by
        rw [hroot, h.2]; rfl
      have h2 : redirectTarget (handle (lr 1) s "/profesores").trace = none := by
        simp [handle, pathOf, guardedRoute, runGuarded, mkReq, hs, isProfesor, h.1,
          redirectTarget]
      refine ⟨1, handle (lr 1) s "/profesores", by omega, h2, fun n => ?_⟩
      rw [browse_step lr (n + 1) 0 s "/" _ h1, hroot]
      exact browse_stop lr _ 1 s _ h2
    · have h1 : redirectTarget (handle (lr 0) s "/").trace = some "/estudiantes" := by
        rw [hroot, h.2]; rfl
      have h2 : redirectTarget (handle (lr 1) s "/estudiantes").trace = none := by
        simp [handle, pathOf, guardedRoute, runGuarded, mkReq, hs, isEstudiante, h.1,
          redirectTarget]
      refine ⟨1, handle (lr 1) s "/estudiantes", by omega, h2, fun n => ?_⟩
      rw [browse_step lr (n + 1) 0 s "/" _ h1, hroot]
      exact browse_stop lr _ 1 s _ h2
    · have h1 : redirectTarget (handle (lr 0) s "/").trace = some "/acompanantes" := by
        rw [hroot, h.2]; rfl
      have h2 : redirectTarget (handle (lr 1) s "/acompanantes").trace = none := by
        simp [handle, pathOf, guardedRoute, redirectTarget]
      refine ⟨1, handle (lr 1) s "/acompanantes", by omega, h2, fun n => ?_⟩
      rw [browse_step lr (n + 1) 0 s "/" _ h1, hroot]
      exact browse_stop lr _ 1 s _ h2
    · have h1 : redirectTarget (handle (lr 0) s "/").trace = some "/logout" := by
        rw [hroot, h.2]; rfl
      cases hl : lr 1 with
      | some err =>
        have h2 : redirectTarget (handle (lr 1) s "/logout").trace = none := by
          simp [handle, pathOf, logoutHandler, hl, redirectTarget]
        refine ⟨1, handle (lr 1) s "/logout", by omega, h2, fun n => ?_⟩
        rw [browse_step lr (n + 1) 0 s "/" _ h1, hroot]
        exact browse_stop lr _ 1 s _ h2
      | none =>
        have hout : handle (lr 1) s "/logout" =
            ⟨none, [.logout, .sessionDestroy, .clearCookie "connect.sid", .redirect "/"]⟩ := by
          simp [handle, pathOf, logoutHandler, hl]
        have h2 : redirectTarget (handle (lr 1) s "/logout").trace = some "/" := by
          rw [hout]; rfl
        have h3 : redirectTarget (handle (lr 2) none "/").trace = none :=
          root_anonymous _ _ rfl
        refine ⟨2, handle (lr 2) none "/", by omega, h3, fun n => ?_⟩
        rw [browse_step lr (n + 1) 0 s "/" _ h1, hroot]
        rw [browse_step lr n 1 s "/logout" _ h2, hout]
        exact browse_stop lr _ 2 none _ h3

/-- C10: starting at GET / from any session state, with any results of the
req.logout calls, following the redirects reaches a response that is not a
redirect after at most two redirects, with fuel two and with any larger fuel;
and whenever GET / redirects an authenticated user to a registered guarded
route, that route's middleware calls next for that user. -/
theorem root_redirects_end_within_two (lr : Nat → Option JsError) (s : Option Session)
    (extra : Nat) :
    (∃ hops out, browse lr 2 0 s "/" = some (hops, out) ∧ hops ≤ 2 ∧
      redirectTarget out.trace = none) ∧
    browse lr (2 + extra) 0 s "/" = browse lr 2 0 s "/" ∧
    (∀ u q target guard page, redirectTarget (rootHandler ⟨some u, q⟩) = some target →
      guardedRoute (pathOf target) = some (guard, page) →
      ∀ q2, guard ⟨some u, q2⟩ = .next) := by
  obtain ⟨hops, out, hle, hend, hrun⟩ := browse_root lr s
  refine ⟨⟨hops, out, hrun 0, hle, hend⟩, ?_, ?_⟩
  · rw [Nat.add_comm 2 extra, hrun extra]
    exact (hrun 0).symm
  · intro u q target guard page ht hroute q2
    rcases rootHandler_cases u q with h | h | h | h | h | h <;>
      rw [h.2] at ht <;>
      simp only [redirectTarget, Option.some.injEq] at ht <;>
      subst ht <;>
      simp [pathOf, guardedRoute] at hroute
    · rw [← hroute.1]; simp [isSecretaria, h.1]
    · rw [← hroute.1]; simp [isSecretaria, h.1]
    · rw [← hroute.1]; simp [isProfesor, h.1]
    · rw [← hroute.1]; simp [isEstudiante, h.1]

/-- Witness for C10: a session of a DIRECTOR user is sent from / to
/secretaria, whose middleware isSecretaria lets the user in. -/
theorem root_redirects_end_within_two_witness :
    isSecretaria ⟨some ⟨2, "d@colegio.edu", "DIRECTOR", "Dora", "d.png"⟩, none⟩ = .next :=
  (root_redirects_end_within_two (fun _ => none) none 0).2.2
    ⟨2, "d@colegio.edu", "DIRECTOR", "Dora", "d.png"⟩ none "/secretaria" isSecretaria
    (fun req => .render "secretaria/menu-secretaria" { user := req.user }) rfl rfl none

end CeoSistema
